import Mathlib

/-! gam: request analytics middleware backed by a column store

A shallow embedding of `db.go` and `gam.go`.

* The store (`database/sql`) and the HTTP server are external. Every call into them is
  recorded as an `Event`; what they answer is a field of `DB` / `Tx`, so a theorem that
  quantifies over `DB` speaks about every behaviour of the store.
* Go maps are iterated in an unspecified order. Each `range expectedSchema` loop takes the
  order in which the entries are visited as an argument (`order`); the loops visit every
  entry exactly once, so the theorems assume `order.Perm expectedSchema`.
* `strings.EqualFold` belongs to the Go standard library; the verifier takes it as the
  argument `equalFold`.
-/

set_option autoImplicit false

namespace Gam

/-! ## Errors, values, requests -/

/-- The dynamic payload of a `*clickhouse.Exception`. -/
structure Exception where
  Code : Int
  Message : String
  StackTrace : String
  deriving DecidableEq, Repr

/-- A non-nil Go `error`: the text returned by `Error()` and, when the dynamic type is
`*clickhouse.Exception`, the exception it carries. -/
structure Error where
  text : String
  exception : Option Exception
  deriving DecidableEq, Repr

/-- The error built by `fmt.Errorf`: plain text, no exception payload. -/
def Errorf (text : String) : Error := ⟨text, none⟩

/-- An argument bound to a parameterized statement. -/
inductive Value where
  | str (s : String)
  | int64 (n : Int)
  | strings (l : List String)
  | uint16 (n : Nat)
  deriving DecidableEq, Repr

/-- The fields of `tls.ConnectionState` read by this package. -/
structure ConnectionState where
  Version : Nat
  CipherSuite : Nat
  deriving DecidableEq, Repr

/-- The fields of `http.Request` read by this package. `Header` is the map
`map[string][]string`, keyed by canonical header name. -/
structure Request where
  Method : String
  RequestURI : String
  Proto : String
  Header : List (String × List String)
  ContentLength : Int
  TransferEncoding : List String
  Host : String
  RemoteAddr : String
  TLS : Option ConnectionState
  deriving DecidableEq, Repr

/-- An `http.ResponseWriter`, by identity. -/
abbrev ResponseWriter := Nat

/-- An `http.Handler`, by identity. -/
abbrev Handler := Nat

/-- Calls made into the store, the logger and the HTTP layer, in program order. -/
inductive Event where
  | sqlOpen (driver dsn : String)
  | ping
  | queryRow (query : String)
  | query (query : String)
  | rowsClose
  | exec (query : String)
  | begin
  | txExec (query : String) (args : List Value)
  | rollback
  | commit
  | log (msg : String)
  | httpError (w : ResponseWriter) (error : String) (code : Nat)
  | serveHTTP (next : Handler) (w : ResponseWriter) (r : Request)
  deriving DecidableEq, Repr

/-- A transaction handle `*sql.Tx`: what each of its methods answers. -/
structure Tx where
  Exec : String → List Value → Option Error
  Rollback : Option Error
  Commit : Option Error

/-- One step of `rows.Next()` followed by `rows.Scan(&columnName, &columnType)`. -/
abbrev ScannedRow := Except Error (String × String)

/-- A connection handle `*sql.DB`: what each of its methods answers.
`QueryRowScan q` is `db.QueryRow(q).Scan(&tableCount)`. -/
structure DB where
  Ping : Option Error
  QueryRowScan : String → Except Error Int
  Query : String → Except Error (List ScannedRow)
  Exec : String → Option Error
  Begin : Except Error Tx

/-! ## db.go -/

/-- Expected table schema, in declaration order. -/
def expectedSchema : List (String × String) :=
  [ ("user_agent", "String"),
    ("ip_address", "String"),
    ("accept_language", "String"),
    ("accept_encoding", "String"),
    ("accept_charset", "String"),
    ("accept", "String"),
    ("connection", "String"),
    ("host", "String"),
    ("x_forwarded_for", "String"),
    ("referer", "String"),
    ("cookie", "String"),
    ("dnt", "String"),
    ("upgrade_insecure_requests", "String"),
    ("cache_control", "String"),
    ("pragma", "String"),
    ("via", "String"),
    ("forwarded", "String"),
    ("x_real_ip", "String"),
    ("x_forwarded_proto", "String"),
    ("x_forwarded_host", "String"),
    ("x_forwarded_port", "String"),
    ("x_amz_date", "String"),
    ("x_api_key", "String"),
    ("x_request_id", "String"),
    ("authorization", "String"),
    ("content_type", "String"),
    ("content_length", "Int64"),
    ("method", "String"),
    ("request_uri", "String"),
    ("protocol", "String"),
    ("transfer_encoding", "Array(String)"),
    ("tls_version", "UInt16"),
    ("tls_cipher_suite", "UInt16") ]

/-- A Go `map[string]string`. -/
abbrev StringMap := String → Option String

/-- The result of `make(map[string]string)`. -/
def emptyMap : StringMap := fun _ => none

/-- The assignment `m[k] = v`. -/
def StringMap.set (m : StringMap) (k v : String) : StringMap :=
  fun k' => if k' = k then some v else m k'

/-- The loop `for rows.Next() { rows.Scan(...); actualSchema[columnName] = columnType }`:
a scan error leaves the loop with that error. -/
def scanRows : List ScannedRow → StringMap → Except Error StringMap
  | [], actualSchema => .ok actualSchema
  | .error err :: _, _ => .error err
  | .ok (columnName, columnType) :: rest, actualSchema =>
    scanRows rest (actualSchema.set columnName columnType)

/-- The text of the schema mismatch error. A missing map entry reads as the empty string. -/
def mismatchText (column expectedType actualType : String) : String :=
  "schema mismatch for column '" ++ column ++ "': expected '" ++ expectedType ++
    "', got '" ++ actualType ++ "'"

/-- The loop `for column, expectedType := range expectedSchema`, visiting the entries in
`order`; it returns at the first column that is absent or whose type differs. -/
def compareSchema (equalFold : String → String → Bool) (actualSchema : StringMap) :
    List (String × String) → Option Error
  | [] => none
  | (column, expectedType) :: rest =>
    let actualType := (actualSchema column).getD ""
    let exists_ := (actualSchema column).isSome
    if !exists_ || !equalFold actualType expectedType then
      some (Errorf (mismatchText column expectedType actualType))
    else
      compareSchema equalFold actualSchema rest

/-- The table-count metadata query. -/
def countQuery (tableName : String) : String :=
  "SELECT count() FROM system.tables WHERE name = '" ++ tableName ++ "'"

/-- The column metadata query. -/
def columnsQuery (tableName : String) : String :=
  "SELECT name, type FROM system.columns WHERE table = '" ++ tableName ++ "'"

/-- The verifier: the pair `(bool, error)` it returns and the calls it made. -/
def ensureTableExistsWithTheCorrectForm (equalFold : String → String → Bool)
    (order : List (String × String)) (db : DB) (tableName : String) :
    (Bool × Option Error) × List Event :=
  match db.QueryRowScan (countQuery tableName) with
  | .error err => ((false, some err), [.queryRow (countQuery tableName)])
  | .ok tableCount =>
    if tableCount = 0 then
      ((false, none), [.queryRow (countQuery tableName)])
    else
      match db.Query (columnsQuery tableName) with
      | .error err =>
        ((false, some err), [.queryRow (countQuery tableName), .query (columnsQuery tableName)])
      | .ok rows =>
        match scanRows rows emptyMap with
        | .error err =>
          ((false, some err),
            [.queryRow (countQuery tableName), .query (columnsQuery tableName), .rowsClose])
        | .ok actualSchema =>
          match compareSchema equalFold actualSchema order with
          | some err =>
            ((true, some err),
              [.queryRow (countQuery tableName), .query (columnsQuery tableName), .rowsClose])
          | none =>
            ((true, none),
              [.queryRow (countQuery tableName), .query (columnsQuery tableName), .rowsClose])

/-- The column declaration `fmt.Sprintf("%s %s", key, value)`. -/
def columnDecl (entry : String × String) : String :=
  entry.1 ++ " " ++ entry.2

/-- The slice built by the loop of `createTable`, visiting the entries in `order`. -/
def expectedSchemaSlice (order : List (String × String)) : List String :=
  order.map columnDecl

/-- The statement text built by `createTable`. -/
def createTableSQL (order : List (String × String)) (tableName : String) : String :=
  "CREATE TABLE IF NOT EXISTS " ++ tableName ++ " ( " ++
    ",".intercalate (expectedSchemaSlice order) ++
    " ) ENGINE = MergeTree() ORDER BY (user_agent, ip_address);"

/-- The provisioner: the error it returns and the calls it made. -/
def createTable (order : List (String × String)) (db : DB) (tableName : String) :
    Option Error × List Event :=
  match db.Exec (createTableSQL order tableName) with
  | some err =>
    (some err, [.exec (createTableSQL order tableName), .log ("Error creating table: " ++ err.text)])
  | none => (none, [.exec (createTableSQL order tableName)])

/-! ## gam.go -/

/-- The handle returned by `Init`. -/
structure gam where
  tableName : String
  db : DB

/-- The record built from one request. -/
structure analyticsData where
  UserAgent : String
  IPAddress : String
  AcceptLanguage : String
  AcceptEncoding : String
  AcceptCharset : String
  Accept : String
  Connection : String
  Host : String
  XForwardedFor : String
  Referer : String
  Cookie : String
  DNT : String
  UpgradeInsecureRequests : String
  CacheControl : String
  Pragma : String
  Via : String
  Forwarded : String
  XRealIP : String
  XForwardedProto : String
  XForwardedHost : String
  XForwardedPort : String
  XAmzDate : String
  XApiKey : String
  XRequestID : String
  Authorization : String
  ContentType : String
  ContentLength : Int
  Method : String
  RequestURI : String
  Protocol : String
  TransferEncoding : List String
  TLSVersion : Nat
  TLSCipherSuite : Nat
  deriving DecidableEq, Repr

/-- The data source name `tcp://host:port?username=..&password=..&database=..`. -/
def connectionString (username password hostname port databaseName : String) : String :=
  "tcp://" ++ hostname ++ ":" ++ port ++ "?username=" ++ username ++ "&password=" ++ password ++
    "&database=" ++ databaseName

/-- The text `fmt.Errorf("[%d]: %s \n%s", Code, Message, StackTrace)` of a failed ping. -/
def exceptionText (exception : Exception) : String :=
  "[" ++ toString exception.Code ++ "]: " ++ exception.Message ++ " \n" ++ exception.StackTrace

/-- The tail of `Init` (after the verification block): provision when asked, then return the
handle. `trace` holds the calls made so far. -/
def initProvision (createOrder : List (String × String)) (db : DB) (tableName : String)
    (createTableIfNotExists : Bool) (trace : List Event) : Except Error gam × List Event :=
  if createTableIfNotExists then
    match createTable createOrder db tableName with
    | (some err, tr) => (.error err, trace ++ tr)
    | (none, tr) => (.ok ⟨tableName, db⟩, trace ++ tr)
  else
    (.ok ⟨tableName, db⟩, trace)

/-- The part of `Init` that follows a successful ping. -/
def initAfterPing (equalFold : String → String → Bool)
    (verifyOrder createOrder : List (String × String)) (db : DB) (tableName : String)
    (ensureTableExistanceAndSchema createTableIfNotExists : Bool) (trace : List Event) :
    Except Error gam × List Event :=
  if ensureTableExistanceAndSchema then
    match ensureTableExistsWithTheCorrectForm equalFold verifyOrder db tableName with
    | ((_, some err), tr) => (.error err, trace ++ tr)
    | ((true, none), tr) => (.ok ⟨tableName, db⟩, trace ++ tr)
    | ((false, none), tr) =>
      initProvision createOrder db tableName createTableIfNotExists (trace ++ tr)
  else
    initProvision createOrder db tableName createTableIfNotExists trace

/-- The constructor. `sqlOpen` is `sql.Open`; `verifyOrder` and `createOrder` are the orders in
which the verifier and the provisioner visit `expectedSchema`. -/
def Init (equalFold : String → String → Bool) (verifyOrder createOrder : List (String × String))
    (sqlOpen : String → String → Except Error DB)
    (username password hostname port databaseName tableName : String)
    (ensureTableExistanceAndSchema createTableIfNotExists : Bool) :
    Except Error gam × List Event :=
  let dsn := connectionString username password hostname port databaseName
  match sqlOpen "clickhouse" dsn with
  | .error err => (.error err, [.sqlOpen "clickhouse" dsn])
  | .ok db =>
    match db.Ping with
    | some err =>
      match err.exception with
      | some exception =>
        (.error (Errorf (exceptionText exception)), [.sqlOpen "clickhouse" dsn, .ping])
      | none => (.error err, [.sqlOpen "clickhouse" dsn, .ping])
    | none =>
      initAfterPing equalFold verifyOrder createOrder db tableName
        ensureTableExistanceAndSchema createTableIfNotExists [.sqlOpen "clickhouse" dsn, .ping]

/-- The bytes accepted in a header field name (`validHeaderFieldByte`): the token characters
of RFC 7230. -/
def validHeaderFieldByte (c : Char) : Bool :=
  c.isAlphanum || "!#$%&\x27*+-.^_\x60|~".data.contains c

/-- The canonicalisation loop: upper case for the first letter and each letter after a dash,
lower case elsewhere. -/
def canonicalChars : Bool → List Char → List Char
  | _, [] => []
  | upper, c :: cs =>
    let c' :=
      if upper && c.isLower then c.toUpper
      else if !upper && c.isUpper then c.toLower
      else c
    c' :: canonicalChars (c' == '-') cs

/-- The key form `textproto.CanonicalMIMEHeaderKey`: a key holding a byte that is not a token
character is returned unchanged. Every key this package looks up is a literal token. -/
def CanonicalMIMEHeaderKey (s : String) : String :=
  if s.data.all validHeaderFieldByte then String.mk (canonicalChars true s.data) else s

/-- The lookup `Header.Get`: the first value stored under the canonical key, or `""`. -/
def HeaderGet (h : List (String × List String)) (key : String) : String :=
  match h.lookup (CanonicalMIMEHeaderKey key) with
  | some (v :: _) => v
  | _ => ""

/-- The method `r.UserAgent()`. -/
def UserAgent (r : Request) : String := HeaderGet r.Header "User-Agent"

/-- The method `r.Referer()`. -/
def Referer (r : Request) : String := HeaderGet r.Header "Referer"

/-- The extractor. -/
def extractAnalyticsData (r : Request) : analyticsData :=
  let tlsVersion : Nat := match r.TLS with
    | some state => state.Version
    | none => 0
  let tlsCipherSuite : Nat := match r.TLS with
    | some state => state.CipherSuite
    | none => 0
  {
    UserAgent := UserAgent r
    IPAddress := r.RemoteAddr
    AcceptLanguage := HeaderGet r.Header "Accept-Language"
    AcceptEncoding := HeaderGet r.Header "Accept-Encoding"
    AcceptCharset := HeaderGet r.Header "Accept-Charset"
    Accept := HeaderGet r.Header "Accept"
    Connection := HeaderGet r.Header "Connection"
    Host := r.Host
    XForwardedFor := HeaderGet r.Header "X-Forwarded-For"
    Referer := Referer r
    Cookie := HeaderGet r.Header "Cookie"
    DNT := HeaderGet r.Header "DNT"
    UpgradeInsecureRequests := HeaderGet r.Header "Upgrade-Insecure-Requests"
    CacheControl := HeaderGet r.Header "Cache-Control"
    Pragma := HeaderGet r.Header "Pragma"
    Via := HeaderGet r.Header "Via"
    Forwarded := HeaderGet r.Header "Forwarded"
    XRealIP := HeaderGet r.Header "X-Real-IP"
    XForwardedProto := HeaderGet r.Header "X-Forwarded-Proto"
    XForwardedHost := HeaderGet r.Header "X-Forwarded-Host"
    XForwardedPort := HeaderGet r.Header "X-Forwarded-Port"
    XAmzDate := HeaderGet r.Header "X-Amz-Date"
    XApiKey := HeaderGet r.Header "X-Api-Key"
    XRequestID := HeaderGet r.Header "X-Request-ID"
    Authorization := HeaderGet r.Header "Authorization"
    ContentType := HeaderGet r.Header "Content-Type"
    ContentLength := r.ContentLength
    Method := r.Method
    RequestURI := r.RequestURI
    Protocol := r.Proto
    TransferEncoding := r.TransferEncoding
    TLSVersion := tlsVersion
    TLSCipherSuite := tlsCipherSuite
  }

/-- The column list of the insert statement: the text between `INSERT INTO <table> (` and
`) VALUES`. -/
def insertColumnList : String :=
    "\n" ++
    "\tuser_agent, ip_address, accept_language, accept_encoding, \n" ++
    "\taccept_charset, accept, connection, host, x_forwarded_for, \n" ++
    "\treferer, cookie, dnt, upgrade_insecure_requests, cache_control, \n" ++
    "\tpragma, via, forwarded, x_real_ip, x_forwarded_proto, x_forwarded_host,\n" ++
    "\tx_forwarded_port, x_amz_date, x_api_key, x_request_id, authorization, \n" ++
    "\tcontent_type, content_length, method, request_uri, protocol, \n" ++
    "\ttransfer_encoding, tls_version, tls_cipher_suite\n"

/-- The placeholder list of the insert statement: the text between `VALUES (` and `)`. -/
def insertPlaceholders : String :=
  "?, ?, ?, ?, ?, ?, ?, ?, ?, ?, ?, ?, ?, ?, ?, ?, ?, ?, ?, ?, ?, ?, ?, ?, ?, ?, ?, ?, ?, ?, ?, ?, ?, ?"

/-- The statement text `fmt.Sprintf(..., g.tableName)` of the insert. -/
def insertStatement (tableName : String) : String :=
  "\nINSERT INTO " ++ tableName ++ " (" ++ insertColumnList ++ ") VALUES (" ++
    insertPlaceholders ++ ")"

/-- The arguments bound to the insert statement, in call order. -/
def insertArgs (data : analyticsData) : List Value :=
  [
    .str data.UserAgent, .str data.IPAddress, .str data.AcceptLanguage,
    .str data.AcceptEncoding, .str data.AcceptCharset, .str data.Accept,
    .str data.Connection, .str data.Host, .str data.XForwardedFor,
    .str data.Referer, .str data.Cookie, .str data.DNT,
    .str data.UpgradeInsecureRequests, .str data.CacheControl, .str data.Pragma,
    .str data.Via, .str data.Forwarded, .str data.XRealIP, .str data.XForwardedProto,
    .str data.XForwardedHost, .str data.XForwardedPort, .str data.XAmzDate,
    .str data.XApiKey, .str data.XRequestID, .str data.Authorization,
    .str data.ContentType, .int64 data.ContentLength, .str data.Method,
    .str data.RequestURI, .str data.Protocol, .strings data.TransferEncoding,
    .uint16 data.TLSVersion, .uint16 data.TLSCipherSuite
  ]

/-- The writer: the error it returns and the calls it made. -/
def addAnalyticsDataToDB (g : gam) (data : analyticsData) : Option Error × List Event :=
  match g.db.Begin with
  | .error err => (some err, [.begin, .log ("Error while starting transaction " ++ err.text)])
  | .ok tx =>
    match tx.Exec (insertStatement g.tableName) (insertArgs data) with
    | some err =>
      (some err,
        [.begin, .txExec (insertStatement g.tableName) (insertArgs data), .rollback,
          .log ("Error inserting fingerprint: " ++ err.text)])
    | none =>
      match tx.Commit with
      | some err =>
        (some err,
          [.begin, .txExec (insertStatement g.tableName) (insertArgs data), .commit,
            .log ("Error while committing transaction " ++ err.text)])
      | none =>
        (none, [.begin, .txExec (insertStatement g.tableName) (insertArgs data), .commit])

/-- The status code `http.StatusInternalServerError`. -/
def StatusInternalServerError : Nat := 500

/-- The handler returned by `Middleware(next)`, run on one request: the calls it made. -/
def Middleware (g : gam) (next : Handler) (w : ResponseWriter) (r : Request) : List Event :=
  let fingerprint := extractAnalyticsData r
  match addAnalyticsDataToDB g fingerprint with
  | (some err, tr) => tr ++ [.httpError w err.text StatusInternalServerError]
  | (none, tr) => tr ++ [.serveHTTP next w r]

/-! ## Reading statements and traces -/

/-- The fields of `analyticsData` in declaration order, each with its accessor. -/
def analyticsDataFields : List (String × (analyticsData → Value)) :=
  [
    ("UserAgent", fun data => .str data.UserAgent),
    ("IPAddress", fun data => .str data.IPAddress),
    ("AcceptLanguage", fun data => .str data.AcceptLanguage),
    ("AcceptEncoding", fun data => .str data.AcceptEncoding),
    ("AcceptCharset", fun data => .str data.AcceptCharset),
    ("Accept", fun data => .str data.Accept),
    ("Connection", fun data => .str data.Connection),
    ("Host", fun data => .str data.Host),
    ("XForwardedFor", fun data => .str data.XForwardedFor),
    ("Referer", fun data => .str data.Referer),
    ("Cookie", fun data => .str data.Cookie),
    ("DNT", fun data => .str data.DNT),
    ("UpgradeInsecureRequests", fun data => .str data.UpgradeInsecureRequests),
    ("CacheControl", fun data => .str data.CacheControl),
    ("Pragma", fun data => .str data.Pragma),
    ("Via", fun data => .str data.Via),
    ("Forwarded", fun data => .str data.Forwarded),
    ("XRealIP", fun data => .str data.XRealIP),
    ("XForwardedProto", fun data => .str data.XForwardedProto),
    ("XForwardedHost", fun data => .str data.XForwardedHost),
    ("XForwardedPort", fun data => .str data.XForwardedPort),
    ("XAmzDate", fun data => .str data.XAmzDate),
    ("XApiKey", fun data => .str data.XApiKey),
    ("XRequestID", fun data => .str data.XRequestID),
    ("Authorization", fun data => .str data.Authorization),
    ("ContentType", fun data => .str data.ContentType),
    ("ContentLength", fun data => .int64 data.ContentLength),
    ("Method", fun data => .str data.Method),
    ("RequestURI", fun data => .str data.RequestURI),
    ("Protocol", fun data => .str data.Protocol),
    ("TransferEncoding", fun data => .strings data.TransferEncoding),
    ("TLSVersion", fun data => .uint16 data.TLSVersion),
    ("TLSCipherSuite", fun data => .uint16 data.TLSCipherSuite)
  ]

/-- Split a text at every occurrence of `sep`. -/
def splitChars (sep : Char) : List Char → List (List Char)
  | [] => [[]]
  | c :: cs =>
    if c = sep then [] :: splitChars sep cs
    else
      match splitChars sep cs with
      | [] => [[c]]
      | w :: ws => (c :: w) :: ws

/-- Strip leading and trailing white space. -/
def trimChars (cs : List Char) : List Char :=
  ((cs.dropWhile Char.isWhitespace).reverse.dropWhile Char.isWhitespace).reverse

/-- The names listed in a comma-separated column list, white space stripped. -/
def columnNames (columnList : String) : List String :=
  (splitChars ',' columnList.data).map fun cs => String.mk (trimChars cs)

/-- The declarations of a comma-separated column declaration list. -/
def columnDecls (columns : String) : List String :=
  (splitChars ',' columns.data).map String.mk

/-- The number of `?` placeholders in a text. -/
def placeholderCount (s : String) : Nat :=
  s.data.count '?'

/-- A name with underscores dropped and letters lowered: `ip_address` and `IPAddress` both
read `ipaddress`. -/
def foldName (s : String) : List Char :=
  (s.data.filter fun c => c != '_').map Char.toLower

/-- The accessor of the `analyticsData` field whose name matches a column name. -/
def fieldOfColumn (column : String) : Option (analyticsData → Value) :=
  (analyticsDataFields.find? fun f => foldName f.1 == foldName column).map Prod.snd

/-- Whether `needle` occurs in `text`. -/
def containsText (text needle : String) : Bool :=
  text.data.tails.any fun t => needle.data.isPrefixOf t

/-- The calls `db.Exec`. -/
def Event.isExec : Event → Bool
  | .exec _ => true
  | _ => false

/-- The calls `db.Query`. -/
def Event.isQuery : Event → Bool
  | .query _ => true
  | _ => false

/-- The calls `tx.Exec`. -/
def Event.isTxExec : Event → Bool
  | .txExec _ _ => true
  | _ => false

/-- The calls `tx.Rollback`. -/
def Event.isRollback : Event → Bool
  | .rollback => true
  | _ => false

/-- The calls `tx.Commit`. -/
def Event.isCommit : Event → Bool
  | .commit => true
  | _ => false

/-- The calls `next.ServeHTTP`. -/
def Event.isServeHTTP : Event → Bool
  | .serveHTTP _ _ _ => true
  | _ => false

/-- The calls `http.Error`. -/
def Event.isHttpError : Event → Bool
  | .httpError _ _ _ => true
  | _ => false

/-- The ASCII path of `strings.EqualFold`: equal length, and at each position equal bytes or
an upper case letter against its lower case form. It is `strings.EqualFold` on ASCII text. -/
def asciiEqualFold (s t : String) : Bool :=
  go s.data t.data
where
  /-- The byte loop. -/
  go : List Char → List Char → Bool
    | [], [] => true
    | sr :: s, tr :: t =>
      if tr = sr then go s t
      else
        let lo := if tr < sr then tr else sr
        let hi := if tr < sr then sr else tr
        if lo.isUpper && hi.toNat = lo.toNat + 32 then go s t else false
    | _, _ => false

/-! ## Sample stores and requests -/

/-- A store that reports `tableCount` tables and the column metadata `rows` and answers every
other call without error. -/
def storeWith (tableCount : Int) (rows : List ScannedRow) : DB where
  Ping := none
  QueryRowScan := fun _ => .ok tableCount
  Query := fun _ => .ok rows
  Exec := fun _ => none
  Begin := .ok ⟨fun _ _ => none, none, none⟩

/-- The map read from `rows` (empty when a scan fails). -/
def actualOf (rows : List ScannedRow) : StringMap :=
  match scanRows rows emptyMap with
  | .ok actualSchema => actualSchema
  | .error _ => emptyMap

/-- Column metadata of a table with exactly the expected columns, types in lower case. -/
def exactRows : List ScannedRow :=
  expectedSchema.map fun entry => .ok (entry.1, String.mk (entry.2.data.map Char.toLower))

/-- Column metadata of the same table with one more column, `created_at`. -/
def matchingRows : List ScannedRow :=
  exactRows ++ [.ok ("created_at", "DateTime")]

/-- Column metadata of a table whose only divergence is `content_length` typed `String`. -/
def contentLengthStringRows : List ScannedRow :=
  expectedSchema.map fun entry =>
    .ok (if entry.1 = "content_length" then (entry.1, "String") else entry)

/-- Column metadata of a table that has every expected column but `tls_cipher_suite`. -/
def missingColumnRows : List ScannedRow :=
  (expectedSchema.filter fun entry => entry.1 != "tls_cipher_suite").map .ok

/-- The function `sql.Open` that hands out `db` for every data source name. -/
def openTo (db : DB) : String → String → Except Error DB :=
  fun _ _ => .ok db

/-- A store whose `Begin` hands out the transaction `tx`. -/
def storeWithTx (tx : Tx) : DB where
  Ping := none
  QueryRowScan := fun _ => .ok 1
  Query := fun _ => .ok []
  Exec := fun _ => none
  Begin := .ok tx

/-- A transaction whose every call succeeds. -/
def txOk : Tx := ⟨fun _ _ => none, none, none⟩

/-- A transaction whose insert fails. -/
def txInsertFails : Tx := ⟨fun _ _ => some (Errorf "insert failed"), none, none⟩

/-- A plaintext request without headers. -/
def plainRequest : Request where
  Method := "GET"
  RequestURI := "/"
  Proto := "HTTP/1.1"
  Header := []
  ContentLength := 0
  TransferEncoding := []
  Host := "example.org"
  RemoteAddr := "192.0.2.1:4711"
  TLS := none

/-- A request over TLS 1.3 (`0x0304`) with cipher suite `0x1301` and two headers. -/
def tlsRequest : Request :=
  { plainRequest with
    Header := [("User-Agent", ["curl/8.0"]), ("Dnt", ["1"])]
    TLS := some ⟨772, 4865⟩ }

/-! ## Lemmas -/

set_option maxRecDepth 100000

/-- On a present table whose metadata is read without error, the verifier returns `true`
and whatever the comparison loop returns. -/
theorem verifier_of_present (equalFold : String → String → Bool)
    (order : List (String × String)) (db : DB) (tableName : String) (tableCount : Int)
    (rows : List ScannedRow) (actualSchema : StringMap)
    (hcount : db.QueryRowScan (countQuery tableName) = .ok tableCount) (hne : tableCount ≠ 0)
    (hquery : db.Query (columnsQuery tableName) = .ok rows)
    (hscan : scanRows rows emptyMap = .ok actualSchema) :
    (ensureTableExistsWithTheCorrectForm equalFold order db tableName).1 =
      (true, compareSchema equalFold actualSchema order) := by
  unfold ensureTableExistsWithTheCorrectForm
  simp only [hcount, hne, hquery, hscan, if_false]
  cases compareSchema equalFold actualSchema order <;> rfl

/-- The comparison loop finds nothing exactly when every visited column has a matching type. -/
theorem compareSchema_eq_none (equalFold : String → String → Bool) (actualSchema : StringMap)
    (order : List (String × String)) :
    compareSchema equalFold actualSchema order = none ↔
      ∀ entry ∈ order, ∃ actualType,
        actualSchema entry.1 = some actualType ∧ equalFold actualType entry.2 = true := by
  induction order with
  | nil => simp [compareSchema]
  | cons entry rest ih =>
    obtain ⟨column, expectedType⟩ := entry
    cases h : actualSchema column with
    | none => simp [compareSchema, h]
    | some actualType =>
      cases hf : equalFold actualType expectedType <;> simp [compareSchema, h, hf, ih]

/-- The error of the comparison loop reports a visited column that is absent or differs. -/
theorem compareSchema_eq_some (equalFold : String → String → Bool) (actualSchema : StringMap)
    (order : List (String × String)) (err : Error)
    (h : compareSchema equalFold actualSchema order = some err) :
    ∃ entry ∈ order,
      (actualSchema entry.1 = none ∨
        ∃ actualType, actualSchema entry.1 = some actualType ∧
          equalFold actualType entry.2 = false) ∧
      err = Errorf (mismatchText entry.1 entry.2 ((actualSchema entry.1).getD "")) := by
  induction order with
  | nil => simp [compareSchema] at h
  | cons entry rest ih =>
    obtain ⟨column, expectedType⟩ := entry
    cases hc : actualSchema column with
    | none =>
      simp [compareSchema, hc] at h
      exact ⟨(column, expectedType), by simp, Or.inl hc, by simp [hc, ← h]⟩
    | some actualType =>
      cases hf : equalFold actualType expectedType
      · simp [compareSchema, hc, hf] at h
        exact ⟨(column, expectedType), by simp, Or.inr ⟨actualType, hc, hf⟩, by simp [hc, ← h]⟩
      · simp [compareSchema, hc, hf] at h
        obtain ⟨entry, hmem, hmis, herr⟩ := ih h
        exact ⟨entry, by simp [hmem], hmis, herr⟩

/-- The comparison loop reads the actual schema at the visited columns only. -/
theorem compareSchema_congr (equalFold : String → String → Bool)
    (actualSchema actualSchema' : StringMap) (order : List (String × String))
    (h : ∀ entry ∈ order, actualSchema' entry.1 = actualSchema entry.1) :
    compareSchema equalFold actualSchema' order = compareSchema equalFold actualSchema order := by
  induction order with
  | nil => rfl
  | cons entry rest ih =>
    obtain ⟨column, expectedType⟩ := entry
    have h0 : actualSchema' column = actualSchema column := h (column, expectedType) (by simp)
    have h1 := ih (fun e he => h e (by simp [he]))
    simp [compareSchema, h0, h1]

/-- The comparison loop fails exactly when a visited column is absent or differs. -/
theorem compareSchema_isSome_iff (equalFold : String → String → Bool) (actualSchema : StringMap)
    (order : List (String × String)) :
    (compareSchema equalFold actualSchema order).isSome ↔
      ∃ entry ∈ order, actualSchema entry.1 = none ∨
        ∃ actualType, actualSchema entry.1 = some actualType ∧
          equalFold actualType entry.2 = false := by
  constructor
  · intro h
    obtain ⟨err, herr⟩ := Option.isSome_iff_exists.mp h
    obtain ⟨entry, hmem, hmis, -⟩ := compareSchema_eq_some equalFold actualSchema order err herr
    exact ⟨entry, hmem, hmis⟩
  · rintro ⟨entry, hmem, hmis⟩
    by_contra hnone
    have hn : compareSchema equalFold actualSchema order = none := by
      cases hc : compareSchema equalFold actualSchema order with
      | none => rfl
      | some e => simp [hc] at hnone
    obtain ⟨t, ht, hf⟩ := (compareSchema_eq_none equalFold actualSchema order).mp hn entry hmem
    rcases hmis with h0 | ⟨t', ht', hf'⟩
    · simp [h0] at ht
    · rw [ht] at ht'
      cases ht'
      simp [hf] at hf'

/-- Once the connection is open and the ping succeeds, `Init` continues with the
verification block. -/
theorem Init_of_ping (equalFold : String → String → Bool)
    (verifyOrder createOrder : List (String × String))
    (sqlOpen : String → String → Except Error DB)
    (username password hostname port databaseName tableName : String)
    (ensureTableExistanceAndSchema createTableIfNotExists : Bool) (db : DB)
    (hopen : sqlOpen "clickhouse"
      (connectionString username password hostname port databaseName) = .ok db)
    (hping : db.Ping = none) :
    Init equalFold verifyOrder createOrder sqlOpen username password hostname port databaseName
        tableName ensureTableExistanceAndSchema createTableIfNotExists =
      initAfterPing equalFold verifyOrder createOrder db tableName
        ensureTableExistanceAndSchema createTableIfNotExists
        [.sqlOpen "clickhouse" (connectionString username password hostname port databaseName),
          .ping] := by
  unfold Init
  simp only [hopen, hping]

/-- The verifier never calls `db.Exec`. -/
theorem verifier_trace_no_exec (equalFold : String → String → Bool)
    (order : List (String × String)) (db : DB) (tableName : String) :
    (ensureTableExistsWithTheCorrectForm equalFold order db tableName).2.filter Event.isExec
      = [] := by
  unfold ensureTableExistsWithTheCorrectForm
  repeat' split
  all_goals rfl

/-- The provisioner calls `db.Exec` once, with the statement it built. -/
theorem createTable_trace_exec (order : List (String × String)) (db : DB) (tableName : String) :
    (createTable order db tableName).2.filter Event.isExec =
      [.exec (createTableSQL order tableName)] := by
  unfold createTable
  split <;> rfl

/-- The calls `db.Exec` of the tail of `Init`. -/
theorem initProvision_exec (createOrder : List (String × String)) (db : DB) (tableName : String)
    (createTableIfNotExists : Bool) (trace : List Event) :
    (initProvision createOrder db tableName createTableIfNotExists trace).2.filter Event.isExec =
      trace.filter Event.isExec ++
        if createTableIfNotExists then [.exec (createTableSQL createOrder tableName)] else [] := by
  unfold initProvision
  cases createTableIfNotExists
  · simp
  · have h := createTable_trace_exec createOrder db tableName
    simp only [if_true]
    split <;> simp_all

/-- The writer touches neither the downstream handler nor the response. -/
theorem writer_trace_no_http (g : gam) (data : analyticsData) :
    (addAnalyticsDataToDB g data).2.filter Event.isServeHTTP = [] ∧
    (addAnalyticsDataToDB g data).2.filter Event.isHttpError = [] := by
  unfold addAnalyticsDataToDB
  repeat' split
  all_goals exact ⟨rfl, rfl⟩

/-- Every lookup in an empty header collection yields the empty string. -/
theorem HeaderGet_nil (key : String) : HeaderGet [] key = "" := by
  simp [HeaderGet, List.lookup]

/-- Splitting a text whose first separator follows `w`. -/
theorem splitChars_append_sep (sep : Char) (w rest : List Char) (hw : sep ∉ w) :
    splitChars sep (w ++ sep :: rest) = w :: splitChars sep rest := by
  induction w with
  | nil => simp [splitChars]
  | cons c w ih =>
    have hc : c ≠ sep := fun h => hw (by simp [h])
    have hw' : sep ∉ w := fun h => hw (by simp [h])
    simp [splitChars, hc, ih hw']

/-- A text without separator is a single piece. -/
theorem splitChars_of_not_mem (sep : Char) (w : List Char) (hw : sep ∉ w) :
    splitChars sep w = [w] := by
  induction w with
  | nil => simp [splitChars]
  | cons c w ih =>
    have hc : c ≠ sep := fun h => hw (by simp [h])
    have hw' : sep ∉ w := fun h => hw (by simp [h])
    simp [splitChars, hc, ih hw']

/-- The characters of a comma-joined text. -/
theorem intercalate_go_data (acc : String) (l : List String) :
    (String.intercalate.go acc "," l).data =
      acc.data ++ (l.map fun a => ',' :: a.data).flatten := by
  induction l generalizing acc with
  | nil => simp [String.intercalate.go]
  | cons a l ih =>
    have hd : ",".data = [','] := rfl
    simp [String.intercalate.go, ih, List.append_assoc, hd]

/-- Splitting a comma-joined text gives back the joined pieces. -/
theorem splitChars_joined (acc : List Char) (l : List String) (hacc : ',' ∉ acc)
    (hl : ∀ a ∈ l, ',' ∉ a.data) :
    splitChars ',' (acc ++ (l.map fun a => ',' :: a.data).flatten) =
      acc :: l.map String.data := by
  induction l generalizing acc with
  | nil => simpa using splitChars_of_not_mem ',' acc hacc
  | cons a l ih =>
    have ha : ',' ∉ a.data := hl a (by simp)
    have h := ih a.data ha (fun b hb => hl b (by simp [hb]))
    simp only [List.map_cons, List.flatten_cons, List.cons_append]
    rw [splitChars_append_sep ',' acc _ hacc, h]

/-- Reading the declarations of a comma-joined list of comma-free declarations gives the
list back. -/
theorem columnDecls_intercalate (l : List String) (hne : l ≠ [])
    (hl : ∀ a ∈ l, ',' ∉ a.data) : columnDecls (",".intercalate l) = l := by
  cases l with
  | nil => exact absurd rfl hne
  | cons a l =>
    have hid : (String.mk ∘ String.data) = id := rfl
    unfold columnDecls
    simp only [String.intercalate, intercalate_go_data]
    rw [splitChars_joined a.data l (hl a (by simp)) (fun b hb => hl b (by simp [hb]))]
    simp [List.map_map, hid]

/-- No column declaration of the expected schema holds a comma. -/
theorem expectedSchema_decl_no_comma : ∀ entry ∈ expectedSchema, ',' ∉ (columnDecl entry).data := by
  decide

/-! ## The claims -/

/-- Claim C1. For a table whose metadata count is non-zero and whose column metadata is read
without error into `actualSchema`, the verifier returns the presence flag `true`; it returns
an error if and only if some column of `expectedSchema` is absent from `actualSchema` or has an
actual type that `equalFold` does not equate with the declared type; and a second store whose
actual mapping differs from `actualSchema` only at columns that `expectedSchema` does not
declare gets the same result. This holds for every order in which the map is visited. -/
theorem ensureTableExistsWithTheCorrectForm_present (equalFold : String → String → Bool)
    (order : List (String × String)) (db : DB) (tableName : String) (tableCount : Int)
    (rows : List ScannedRow) (actualSchema : StringMap)
    (horder : order.Perm expectedSchema)
    (hcount : db.QueryRowScan (countQuery tableName) = .ok tableCount) (hne : tableCount ≠ 0)
    (hquery : db.Query (columnsQuery tableName) = .ok rows)
    (hscan : scanRows rows emptyMap = .ok actualSchema) :
    (ensureTableExistsWithTheCorrectForm equalFold order db tableName).1.1 = true ∧
    ((ensureTableExistsWithTheCorrectForm equalFold order db tableName).1.2.isSome ↔
      ∃ entry ∈ expectedSchema, actualSchema entry.1 = none ∨
        ∃ actualType, actualSchema entry.1 = some actualType ∧
          equalFold actualType entry.2 = false) ∧
    ∀ (db' : DB) (tableCount' : Int) (rows' : List ScannedRow) (actualSchema' : StringMap),
      db'.QueryRowScan (countQuery tableName) = .ok tableCount' → tableCount' ≠ 0 →
      db'.Query (columnsQuery tableName) = .ok rows' →
      scanRows rows' emptyMap = .ok actualSchema' →
      (∀ column, actualSchema' column ≠ actualSchema column →
        column ∉ expectedSchema.map Prod.fst) →
      (ensureTableExistsWithTheCorrectForm equalFold order db' tableName).1 =
        (ensureTableExistsWithTheCorrectForm equalFold order db tableName).1 := by
  have hp := verifier_of_present equalFold order db tableName tableCount rows actualSchema
    hcount hne hquery hscan
  refine ⟨by rw [hp], ?_, ?_⟩
  · rw [hp]
    simp only [compareSchema_isSome_iff]
    constructor
    · rintro ⟨entry, hmem, h⟩
      exact ⟨entry, horder.mem_iff.mp hmem, h⟩
    · rintro ⟨entry, hmem, h⟩
      exact ⟨entry, horder.mem_iff.mpr hmem, h⟩
  · intro db' tableCount' rows' actualSchema' hcount' hne' hquery' hscan' hextra
    rw [hp, verifier_of_present equalFold order db' tableName tableCount' rows' actualSchema'
      hcount' hne' hquery' hscan']
    congr 1
    apply compareSchema_congr
    intro entry hmem
    by_contra hdiff
    exact hextra entry.1 hdiff (List.mem_map_of_mem Prod.fst (horder.mem_iff.mp hmem))

/-- The verifier on a table that holds exactly the expected columns, types in lower case, and
on the same table with the undeclared column `created_at` added. -/
theorem ensureTableExistsWithTheCorrectForm_present_witness :
    (expectedSchema.Perm expectedSchema ∧
      (storeWith 1 exactRows).QueryRowScan (countQuery "analytics") = .ok 1 ∧ (1 : Int) ≠ 0 ∧
      (storeWith 1 exactRows).Query (columnsQuery "analytics") = .ok exactRows ∧
      scanRows exactRows emptyMap = .ok (actualOf exactRows)) ∧
    (ensureTableExistsWithTheCorrectForm asciiEqualFold expectedSchema
        (storeWith 1 exactRows) "analytics").1.1 = true ∧
    ((ensureTableExistsWithTheCorrectForm asciiEqualFold expectedSchema
        (storeWith 1 exactRows) "analytics").1.2.isSome ↔
      ∃ entry ∈ expectedSchema, actualOf exactRows entry.1 = none ∨
        ∃ actualType, actualOf exactRows entry.1 = some actualType ∧
          asciiEqualFold actualType entry.2 = false) ∧
    (scanRows matchingRows emptyMap = .ok (actualOf matchingRows) ∧
      actualOf matchingRows "created_at" ≠ actualOf exactRows "created_at" ∧
      ∀ column, actualOf matchingRows column ≠ actualOf exactRows column →
        column ∉ expectedSchema.map Prod.fst) ∧
    (ensureTableExistsWithTheCorrectForm asciiEqualFold expectedSchema
        (storeWith 1 matchingRows) "analytics").1 =
      (ensureTableExistsWithTheCorrectForm asciiEqualFold expectedSchema
        (storeWith 1 exactRows) "analytics").1 :=
  have h := ensureTableExistsWithTheCorrectForm_present asciiEqualFold expectedSchema
    (storeWith 1 exactRows) "analytics" 1 exactRows (actualOf exactRows)
    (List.Perm.refl _) rfl (by decide) rfl rfl
  have hset : actualOf matchingRows = (actualOf exactRows).set "created_at" "DateTime" := rfl
  have hextra : ∀ column, actualOf matchingRows column ≠ actualOf exactRows column →
      column ∉ expectedSchema.map Prod.fst := by
    intro column hne hmem
    have hcol : column ≠ "created_at" := by
      rintro rfl
      revert hmem
      decide
    exact hne (by simp [hset, StringMap.set, hcol])
  ⟨⟨List.Perm.refl _, rfl, by decide, rfl, rfl⟩, h.1, h.2.1, ⟨rfl, by decide, hextra⟩,
    h.2.2 (storeWith 1 matchingRows) 1 matchingRows (actualOf matchingRows) rfl (by decide)
      rfl rfl hextra⟩

/-- Claim C2. When the table-count query succeeds and yields zero, the verifier returns
`(false, nil)` whatever the store would answer to the column metadata query, and the only call
it makes is the table-count query: the column metadata query is not issued. -/
theorem ensureTableExistsWithTheCorrectForm_absent (equalFold : String → String → Bool)
    (order : List (String × String)) (db : DB) (tableName : String)
    (hcount : db.QueryRowScan (countQuery tableName) = .ok 0) :
    (ensureTableExistsWithTheCorrectForm equalFold order db tableName).1 = (false, none) ∧
    (ensureTableExistsWithTheCorrectForm equalFold order db tableName).2 =
      [.queryRow (countQuery tableName)] ∧
    (ensureTableExistsWithTheCorrectForm equalFold order db tableName).2.countP Event.isQuery
      = 0 := by
  unfold ensureTableExistsWithTheCorrectForm
  simp [hcount, Event.isQuery]

/-- The verifier on a store that reports no table, although it would report columns. -/
theorem ensureTableExistsWithTheCorrectForm_absent_witness :
    (storeWith 0 matchingRows).QueryRowScan (countQuery "analytics") = .ok 0 ∧
    (ensureTableExistsWithTheCorrectForm asciiEqualFold expectedSchema
        (storeWith 0 matchingRows) "analytics").1 = (false, none) ∧
    (ensureTableExistsWithTheCorrectForm asciiEqualFold expectedSchema
        (storeWith 0 matchingRows) "analytics").2 = [.queryRow (countQuery "analytics")] ∧
    (ensureTableExistsWithTheCorrectForm asciiEqualFold expectedSchema
        (storeWith 0 matchingRows) "analytics").2.countP Event.isQuery = 0 :=
  ⟨rfl, ensureTableExistsWithTheCorrectForm_absent asciiEqualFold expectedSchema
    (storeWith 0 matchingRows) "analytics" rfl⟩

/-- Claim C3. Once the connection is open and the ping succeeds, `Init` calls `createTable`
(the only caller of `db.Exec`) if and only if `createTableIfNotExists` is true and either
`ensureTableExistanceAndSchema` is false or the verifier returned `(false, nil)`. When the
verifier returns `(true, nil)`, `Init` returns the handle bound to `tableName` and never calls
`createTable`; when the verifier returns an error, `Init` returns that error and never calls
`createTable`. -/
theorem Init_createTable_iff (equalFold : String → String → Bool)
    (verifyOrder createOrder : List (String × String))
    (sqlOpen : String → String → Except Error DB)
    (username password hostname port databaseName tableName : String)
    (ensureTableExistanceAndSchema createTableIfNotExists : Bool) (db : DB)
    (hopen : sqlOpen "clickhouse"
      (connectionString username password hostname port databaseName) = .ok db)
    (hping : db.Ping = none) :
    ((Init equalFold verifyOrder createOrder sqlOpen username password hostname port
        databaseName tableName ensureTableExistanceAndSchema createTableIfNotExists).2.filter
          Event.isExec =
      if createTableIfNotExists = true ∧ (ensureTableExistanceAndSchema = false ∨
          (ensureTableExistsWithTheCorrectForm equalFold verifyOrder db tableName).1 =
            (false, none))
      then [.exec (createTableSQL createOrder tableName)] else []) ∧
    (ensureTableExistanceAndSchema = true →
      (ensureTableExistsWithTheCorrectForm equalFold verifyOrder db tableName).1 = (true, none) →
      (Init equalFold verifyOrder createOrder sqlOpen username password hostname port
          databaseName tableName ensureTableExistanceAndSchema createTableIfNotExists).1 =
        .ok ⟨tableName, db⟩ ∧
      (Init equalFold verifyOrder createOrder sqlOpen username password hostname port
          databaseName tableName ensureTableExistanceAndSchema createTableIfNotExists).2.filter
            Event.isExec = []) ∧
    (ensureTableExistanceAndSchema = true → ∀ err,
      (ensureTableExistsWithTheCorrectForm equalFold verifyOrder db tableName).1.2 = some err →
      (Init equalFold verifyOrder createOrder sqlOpen username password hostname port
          databaseName tableName ensureTableExistanceAndSchema createTableIfNotExists).1 =
        .error err ∧
      (Init equalFold verifyOrder createOrder sqlOpen username password hostname port
          databaseName tableName ensureTableExistanceAndSchema createTableIfNotExists).2.filter
            Event.isExec = []) := by
  have hv := verifier_trace_no_exec equalFold verifyOrder db tableName
  rw [Init_of_ping equalFold verifyOrder createOrder sqlOpen username password hostname port
    databaseName tableName ensureTableExistanceAndSchema createTableIfNotExists db hopen hping]
  unfold initAfterPing
  refine ⟨?_, ?_, ?_⟩
  · cases ensureTableExistanceAndSchema
    · cases createTableIfNotExists <;> simp [initProvision_exec, Event.isExec]
    · rcases hres : ensureTableExistsWithTheCorrectForm equalFold verifyOrder db tableName with
        ⟨⟨flag, err⟩, tr⟩
      rw [hres] at hv
      simp only at hv
      cases err with
      | some err => simp [Event.isExec, hv]
      | none =>
        cases flag
        · cases createTableIfNotExists <;> simp [initProvision_exec, Event.isExec, hv]
        · simp [Event.isExec, hv]
  · intro hens hmatch
    subst hens
    rcases hres : ensureTableExistsWithTheCorrectForm equalFold verifyOrder db tableName with
      ⟨⟨flag, err⟩, tr⟩
    rw [hres] at hv hmatch
    simp only at hv
    simp only [Prod.mk.injEq] at hmatch
    obtain ⟨rfl, rfl⟩ := hmatch
    simp [Event.isExec, hv]
  · intro hens err herr
    subst hens
    rcases hres : ensureTableExistsWithTheCorrectForm equalFold verifyOrder db tableName with
      ⟨⟨flag, err'⟩, tr⟩
    rw [hres] at hv herr
    simp only at hv herr
    subst herr
    simp [Event.isExec, hv]

/-- Initialization with both flags set: on a present, matching table nothing is provisioned;
on an absent table the create statement is executed. -/
theorem Init_createTable_iff_witness :
    (openTo (storeWith 1 matchingRows) "clickhouse"
        (connectionString "u" "p" "localhost" "9000" "default") = .ok (storeWith 1 matchingRows) ∧
      (storeWith 1 matchingRows).Ping = none) ∧
    (ensureTableExistsWithTheCorrectForm asciiEqualFold expectedSchema
        (storeWith 1 matchingRows) "analytics").1 = (true, none) ∧
    (Init asciiEqualFold expectedSchema expectedSchema (openTo (storeWith 1 matchingRows))
        "u" "p" "localhost" "9000" "default" "analytics" true true).1 =
      .ok ⟨"analytics", storeWith 1 matchingRows⟩ ∧
    (Init asciiEqualFold expectedSchema expectedSchema (openTo (storeWith 1 matchingRows))
        "u" "p" "localhost" "9000" "default" "analytics" true true).2.filter Event.isExec = [] ∧
    (Init asciiEqualFold expectedSchema expectedSchema (openTo (storeWith 0 []))
        "u" "p" "localhost" "9000" "default" "analytics" true true).2.filter Event.isExec =
      [.exec (createTableSQL expectedSchema "analytics")] :=
  have hmatch : (ensureTableExistsWithTheCorrectForm asciiEqualFold expectedSchema
      (storeWith 1 matchingRows) "analytics").1 = (true, none) := by decide
  have h := (Init_createTable_iff asciiEqualFold expectedSchema expectedSchema
    (openTo (storeWith 1 matchingRows)) "u" "p" "localhost" "9000" "default" "analytics"
    true true (storeWith 1 matchingRows) rfl rfl).2.1 rfl hmatch
  have habsent := (Init_createTable_iff asciiEqualFold expectedSchema expectedSchema
    (openTo (storeWith 0 [])) "u" "p" "localhost" "9000" "default" "analytics"
    true true (storeWith 0 []) rfl rfl).1
  ⟨⟨rfl, rfl⟩, hmatch, h.1, h.2, by
    rw [habsent]
    decide⟩

/-- Claim C4. Once the transaction has begun: if the insert fails, the writer returns the
insert error, calls `Rollback` once and never calls `Commit`; if the insert succeeds, it calls
`Commit` exactly once, never calls `Rollback`, and returns what `Commit` returned (no error
exactly when the commit succeeds). In both cases it issues exactly one `tx.Exec`. -/
theorem addAnalyticsDataToDB_transaction (g : gam) (data : analyticsData) (tx : Tx)
    (hbegin : g.db.Begin = .ok tx) :
    (∀ err, tx.Exec (insertStatement g.tableName) (insertArgs data) = some err →
      (addAnalyticsDataToDB g data).1 = some err ∧
      (addAnalyticsDataToDB g data).2.countP Event.isRollback = 1 ∧
      (addAnalyticsDataToDB g data).2.countP Event.isCommit = 0) ∧
    (tx.Exec (insertStatement g.tableName) (insertArgs data) = none →
      (addAnalyticsDataToDB g data).1 = tx.Commit ∧
      (addAnalyticsDataToDB g data).2.countP Event.isCommit = 1 ∧
      (addAnalyticsDataToDB g data).2.countP Event.isRollback = 0) ∧
    (addAnalyticsDataToDB g data).2.countP Event.isTxExec = 1 := by
  unfold addAnalyticsDataToDB
  simp only [hbegin]
  refine ⟨?_, ?_, ?_⟩
  · intro err hexec
    simp [hexec, Event.isRollback, Event.isCommit]
  · intro hexec
    cases hcommit : tx.Commit <;> simp [hexec, Event.isRollback, Event.isCommit]
  · cases hexec : tx.Exec (insertStatement g.tableName) (insertArgs data) with
    | some err => simp [Event.isTxExec]
    | none => cases hcommit : tx.Commit <;> simp [Event.isTxExec]

/-- The writer on a transaction whose insert fails. -/
theorem addAnalyticsDataToDB_transaction_witness :
    (storeWithTx txInsertFails).Begin = .ok txInsertFails ∧
    (addAnalyticsDataToDB ⟨"analytics", storeWithTx txInsertFails⟩
      (extractAnalyticsData plainRequest)).1 = some (Errorf "insert failed") ∧
    (addAnalyticsDataToDB ⟨"analytics", storeWithTx txInsertFails⟩
      (extractAnalyticsData plainRequest)).2.countP Event.isRollback = 1 ∧
    (addAnalyticsDataToDB ⟨"analytics", storeWithTx txInsertFails⟩
      (extractAnalyticsData plainRequest)).2.countP Event.isCommit = 0 ∧
    (addAnalyticsDataToDB ⟨"analytics", storeWithTx txInsertFails⟩
      (extractAnalyticsData plainRequest)).2.countP Event.isTxExec = 1 :=
  have h := addAnalyticsDataToDB_transaction ⟨"analytics", storeWithTx txInsertFails⟩
    (extractAnalyticsData plainRequest) txInsertFails rfl
  ⟨rfl, (h.1 (Errorf "insert failed") rfl).1, (h.1 (Errorf "insert failed") rfl).2.1,
    (h.1 (Errorf "insert failed") rfl).2.2, h.2.2⟩

/-- Claim C5. The handler returned by `Middleware(next)` calls `next.ServeHTTP` exactly once,
with the same response writer and the same request, if and only if the writer returned no error
for the extracted record; when the writer returns an error, `next` is never called and
`http.Error` is called once with the error text and status 500. -/
theorem Middleware_next_iff (g : gam) (next : Handler) (w : ResponseWriter) (r : Request) :
    (Middleware g next w r).filter Event.isServeHTTP =
      (if (addAnalyticsDataToDB g (extractAnalyticsData r)).1.isNone
        then [.serveHTTP next w r] else []) ∧
    (Middleware g next w r).filter Event.isHttpError =
      (match (addAnalyticsDataToDB g (extractAnalyticsData r)).1 with
        | some err => [.httpError w err.text 500]
        | none => []) := by
  have h := writer_trace_no_http g (extractAnalyticsData r)
  have hm : Middleware g next w r =
      match addAnalyticsDataToDB g (extractAnalyticsData r) with
      | (some err, tr) => tr ++ [.httpError w err.text StatusInternalServerError]
      | (none, tr) => tr ++ [.serveHTTP next w r] := rfl
  rw [hm]
  generalize addAnalyticsDataToDB g (extractAnalyticsData r) = res at h
  obtain ⟨err, tr⟩ := res
  obtain ⟨h1, h2⟩ := h
  simp only at h1 h2
  cases err
  · simp only [List.filter_append, h1, h2]
    exact ⟨rfl, rfl⟩
  · simp only [List.filter_append, h1, h2]
    exact ⟨rfl, rfl⟩

/-- Claim C6. The extractor is a total function. For a request with an empty header collection
and no TLS state, every header-derived string field of the record is empty and both TLS fields
are zero; for a request with a TLS state, the TLS fields are that state's `Version` and
`CipherSuite`. -/
theorem extractAnalyticsData_defaults (r : Request) :
    (r.Header = [] → r.TLS = none →
      (extractAnalyticsData r).UserAgent = "" ∧ (extractAnalyticsData r).AcceptLanguage = "" ∧
      (extractAnalyticsData r).AcceptEncoding = "" ∧ (extractAnalyticsData r).AcceptCharset = "" ∧
      (extractAnalyticsData r).Accept = "" ∧ (extractAnalyticsData r).Connection = "" ∧
      (extractAnalyticsData r).XForwardedFor = "" ∧ (extractAnalyticsData r).Referer = "" ∧
      (extractAnalyticsData r).Cookie = "" ∧ (extractAnalyticsData r).DNT = "" ∧
      (extractAnalyticsData r).UpgradeInsecureRequests = "" ∧
      (extractAnalyticsData r).CacheControl = "" ∧ (extractAnalyticsData r).Pragma = "" ∧
      (extractAnalyticsData r).Via = "" ∧ (extractAnalyticsData r).Forwarded = "" ∧
      (extractAnalyticsData r).XRealIP = "" ∧ (extractAnalyticsData r).XForwardedProto = "" ∧
      (extractAnalyticsData r).XForwardedHost = "" ∧
      (extractAnalyticsData r).XForwardedPort = "" ∧ (extractAnalyticsData r).XAmzDate = "" ∧
      (extractAnalyticsData r).XApiKey = "" ∧ (extractAnalyticsData r).XRequestID = "" ∧
      (extractAnalyticsData r).Authorization = "" ∧ (extractAnalyticsData r).ContentType = "" ∧
      (extractAnalyticsData r).TLSVersion = 0 ∧ (extractAnalyticsData r).TLSCipherSuite = 0) ∧
    (∀ state, r.TLS = some state →
      (extractAnalyticsData r).TLSVersion = state.Version ∧
      (extractAnalyticsData r).TLSCipherSuite = state.CipherSuite) := by
  constructor
  · intro hheader htls
    simp [extractAnalyticsData, UserAgent, Referer, hheader, htls, HeaderGet_nil]
  · intro state htls
    simp [extractAnalyticsData, htls]

/-- The extractor on a plaintext request without headers and on a TLS 1.3 request. -/
theorem extractAnalyticsData_defaults_witness :
    (plainRequest.Header = [] ∧ plainRequest.TLS = none ∧
      (extractAnalyticsData plainRequest).UserAgent = "" ∧
      (extractAnalyticsData plainRequest).TLSVersion = 0) ∧
    (tlsRequest.TLS = some ⟨772, 4865⟩ ∧
      (extractAnalyticsData tlsRequest).TLSVersion = 772 ∧
      (extractAnalyticsData tlsRequest).TLSCipherSuite = 4865) :=
  have hplain := (extractAnalyticsData_defaults plainRequest).1 rfl rfl
  have htls := (extractAnalyticsData_defaults tlsRequest).2 ⟨772, 4865⟩ rfl
  ⟨⟨rfl, rfl, hplain.1, hplain.2.2.2.2.2.2.2.2.2.2.2.2.2.2.2.2.2.2.2.2.2.2.2.2.1⟩,
    ⟨rfl, htls.1, htls.2⟩⟩

/-- Claim C7. The insert issued by the writer names exactly the columns of `expectedSchema`,
in declaration order, 33 names without repetition, and binds exactly 33 arguments; the
argument at each position is the `analyticsData` field whose name matches the column named at
that position (`user_agent` to `UserAgent`, `ip_address` to `IPAddress`, and so on), and no two
fields match the same column. -/
theorem insert_columns_and_arguments (g : gam) (data : analyticsData) (tx : Tx)
    (hbegin : g.db.Begin = .ok tx) :
    (addAnalyticsDataToDB g data).2.filter Event.isTxExec =
      [.txExec ("\nINSERT INTO " ++ g.tableName ++ " (" ++ insertColumnList ++ ") VALUES (" ++
        insertPlaceholders ++ ")") (insertArgs data)] ∧
    columnNames insertColumnList = expectedSchema.map Prod.fst ∧
    (columnNames insertColumnList).length = 33 ∧
    (columnNames insertColumnList).Nodup ∧
    (insertArgs data).length = 33 ∧
    (analyticsDataFields.map fun f => foldName f.1).Nodup ∧
    (columnNames insertColumnList).map (fun column =>
        (fieldOfColumn column).map fun field => field data) =
      (insertArgs data).map some := by
  refine ⟨?_, by decide, by decide, by decide, rfl, by decide, rfl⟩
  unfold addAnalyticsDataToDB
  simp only [hbegin]
  repeat' split
  all_goals simp [Event.isTxExec, insertStatement]

/-- The insert issued for a TLS request on the table `analytics`. -/
theorem insert_columns_and_arguments_witness :
    (storeWithTx txOk).Begin = .ok txOk ∧
    (addAnalyticsDataToDB ⟨"analytics", storeWithTx txOk⟩
        (extractAnalyticsData tlsRequest)).2.filter Event.isTxExec =
      [.txExec ("\nINSERT INTO " ++ "analytics" ++ " (" ++ insertColumnList ++ ") VALUES (" ++
        insertPlaceholders ++ ")") (insertArgs (extractAnalyticsData tlsRequest))] ∧
    (insertArgs (extractAnalyticsData tlsRequest)).length = 33 :=
  have h := insert_columns_and_arguments ⟨"analytics", storeWithTx txOk⟩
    (extractAnalyticsData tlsRequest) txOk rfl
  ⟨rfl, h.1, h.2.2.2.2.1⟩

/-- Claim C8. For every table name and every order in which the map is visited, `createTable`
executes one statement `CREATE TABLE IF NOT EXISTS <tableName> ( <columns> ) ENGINE =
MergeTree() ORDER BY (user_agent, ip_address);` whose column list, read back from the text,
declares each of the 33 `expectedSchema` columns exactly once as `<name> <declared type>` and
nothing else; the ordering key is the last clause, followed by the statement terminator. -/
theorem createTable_statement (order : List (String × String)) (db : DB) (tableName : String)
    (horder : order.Perm expectedSchema) :
    ∃ columns : String,
      (createTable order db tableName).2.filter Event.isExec =
        [.exec ("CREATE TABLE IF NOT EXISTS " ++ tableName ++ " ( " ++ columns ++
          " ) ENGINE = MergeTree() " ++ "ORDER BY (user_agent, ip_address)" ++ ";")] ∧
      (columnDecls columns).Perm (expectedSchema.map fun entry => entry.1 ++ " " ++ entry.2) ∧
      (∀ entry ∈ expectedSchema,
        (columnDecls columns).count (entry.1 ++ " " ++ entry.2) = 1) ∧
      (columnDecls columns).length = 33 ∧
      (expectedSchema.map Prod.fst).Nodup ∧ expectedSchema.length = 33 := by
  have hnodup : (expectedSchema.map columnDecl).Nodup := by decide
  have hne : expectedSchemaSlice order ≠ [] := by
    intro h
    have := horder.length_eq
    simp [expectedSchemaSlice] at h
    simp [h, expectedSchema] at this
  have hcomma : ∀ a ∈ expectedSchemaSlice order, ',' ∉ a.data := by
    intro a ha
    obtain ⟨entry, hmem, rfl⟩ := List.mem_map.mp ha
    exact expectedSchema_decl_no_comma entry (horder.mem_iff.mp hmem)
  have hdecl : columnDecls (",".intercalate (expectedSchemaSlice order)) =
      expectedSchemaSlice order := columnDecls_intercalate _ hne hcomma
  have hperm : (expectedSchemaSlice order).Perm (expectedSchema.map columnDecl) :=
    horder.map columnDecl
  refine ⟨",".intercalate (expectedSchemaSlice order), ?_, ?_, ?_, ?_, by decide, by decide⟩
  · unfold createTable
    split <;> simp [Event.isExec, createTableSQL, String.append_assoc]
  · rw [hdecl]; exact hperm
  · intro entry hmem
    rw [hdecl, hperm.count_eq]
    exact List.count_eq_one_of_mem hnodup (List.mem_map_of_mem columnDecl hmem)
  · rw [hdecl, hperm.length_eq]; decide

/-- The statement built when the map is visited in reverse declaration order. -/
theorem createTable_statement_witness :
    expectedSchema.reverse.Perm expectedSchema ∧
    ∃ columns : String,
      (createTable expectedSchema.reverse (storeWith 0 []) "analytics").2.filter Event.isExec =
        [.exec ("CREATE TABLE IF NOT EXISTS " ++ "analytics" ++ " ( " ++ columns ++
          " ) ENGINE = MergeTree() " ++ "ORDER BY (user_agent, ip_address)" ++ ";")] ∧
      (columnDecls columns).Perm (expectedSchema.map fun entry => entry.1 ++ " " ++ entry.2) ∧
      (∀ entry ∈ expectedSchema,
        (columnDecls columns).count (entry.1 ++ " " ++ entry.2) = 1) ∧
      (columnDecls columns).length = 33 ∧
      (expectedSchema.map Prod.fst).Nodup ∧ expectedSchema.length = 33 :=
  ⟨List.reverse_perm _,
    createTable_statement expectedSchema.reverse (storeWith 0 []) "analytics"
      (List.reverse_perm _)⟩

/-- Claim C9, as stated, fails: for a present table that lacks only `tls_cipher_suite`, the
error ends in `got ''` and the word `missing` does not occur in it. -/
theorem schema_mismatch_message_missing_counterexample :
    (ensureTableExistsWithTheCorrectForm asciiEqualFold expectedSchema
        (storeWith 1 missingColumnRows) "analytics").1 =
      (true, some (Errorf
        "schema mismatch for column 'tls_cipher_suite': expected 'UInt16', got ''")) ∧
    containsText "schema mismatch for column 'tls_cipher_suite': expected 'UInt16', got ''"
      "missing" = false := by
  decide

/-- Claim C9, amended. For a present table whose actual schema mismatches `expectedSchema`,
the verifier returns `true` with an error, and `Init` returns the same error, whose text is
`schema mismatch for column '<column>': expected '<declared type>', got '<actual type>'` for a
declared column that is absent or has a differing type; the actual type is the empty string
when the column is absent. -/
theorem schema_mismatch_message (equalFold : String → String → Bool)
    (verifyOrder createOrder : List (String × String))
    (sqlOpen : String → String → Except Error DB)
    (username password hostname port databaseName tableName : String)
    (createTableIfNotExists : Bool) (db : DB) (tableCount : Int)
    (rows : List ScannedRow) (actualSchema : StringMap)
    (horder : verifyOrder.Perm expectedSchema)
    (hopen : sqlOpen "clickhouse"
      (connectionString username password hostname port databaseName) = .ok db)
    (hping : db.Ping = none)
    (hcount : db.QueryRowScan (countQuery tableName) = .ok tableCount) (hne : tableCount ≠ 0)
    (hquery : db.Query (columnsQuery tableName) = .ok rows)
    (hscan : scanRows rows emptyMap = .ok actualSchema)
    (hmismatch : ∃ entry ∈ expectedSchema, actualSchema entry.1 = none ∨
      ∃ actualType, actualSchema entry.1 = some actualType ∧
        equalFold actualType entry.2 = false) :
    ∃ entry ∈ expectedSchema,
      (actualSchema entry.1 = none ∨
        ∃ actualType, actualSchema entry.1 = some actualType ∧
          equalFold actualType entry.2 = false) ∧
      (ensureTableExistsWithTheCorrectForm equalFold verifyOrder db tableName).1 =
        (true, some (Errorf ("schema mismatch for column '" ++ entry.1 ++ "': expected '" ++
          entry.2 ++ "', got '" ++ (actualSchema entry.1).getD "" ++ "'"))) ∧
      (Init equalFold verifyOrder createOrder sqlOpen username password hostname port
          databaseName tableName true createTableIfNotExists).1 =
        .error (Errorf ("schema mismatch for column '" ++ entry.1 ++ "': expected '" ++
          entry.2 ++ "', got '" ++ (actualSchema entry.1).getD "" ++ "'")) := by
  have hp := verifier_of_present equalFold verifyOrder db tableName tableCount rows actualSchema
    hcount hne hquery hscan
  have hsome : (compareSchema equalFold actualSchema verifyOrder).isSome := by
    rw [compareSchema_isSome_iff]
    obtain ⟨entry, hmem, h⟩ := hmismatch
    exact ⟨entry, horder.mem_iff.mpr hmem, h⟩
  obtain ⟨err, herr⟩ := Option.isSome_iff_exists.mp hsome
  obtain ⟨entry, hmem, hmis, htext⟩ :=
    compareSchema_eq_some equalFold actualSchema verifyOrder err herr
  refine ⟨entry, horder.mem_iff.mp hmem, hmis, ?_, ?_⟩
  · rw [hp, herr, htext]; rfl
  · rw [Init_of_ping equalFold verifyOrder createOrder sqlOpen username password hostname port
      databaseName tableName true createTableIfNotExists db hopen hping]
    unfold initAfterPing
    rcases hres : ensureTableExistsWithTheCorrectForm equalFold verifyOrder db tableName with
      ⟨⟨flag, err'⟩, tr⟩
    rw [hres] at hp
    simp only [Prod.mk.injEq] at hp
    obtain ⟨rfl, rfl⟩ := hp
    simp [herr, htext, mismatchText]

/-- A table whose only divergence is `content_length` typed `String`: the message names
`content_length`, expected `Int64`, got `String`. -/
theorem schema_mismatch_message_witness :
    (expectedSchema.reverse.Perm expectedSchema ∧
      openTo (storeWith 1 contentLengthStringRows) "clickhouse"
        (connectionString "u" "p" "localhost" "9000" "default") =
          .ok (storeWith 1 contentLengthStringRows) ∧
      (storeWith 1 contentLengthStringRows).Ping = none ∧
      (storeWith 1 contentLengthStringRows).QueryRowScan (countQuery "analytics") = .ok 1 ∧
      (1 : Int) ≠ 0 ∧
      (storeWith 1 contentLengthStringRows).Query (columnsQuery "analytics") =
        .ok contentLengthStringRows ∧
      scanRows contentLengthStringRows emptyMap = .ok (actualOf contentLengthStringRows) ∧
      ∃ entry ∈ expectedSchema, actualOf contentLengthStringRows entry.1 = none ∨
        ∃ actualType, actualOf contentLengthStringRows entry.1 = some actualType ∧
          asciiEqualFold actualType entry.2 = false) ∧
    (∃ entry ∈ expectedSchema,
      (actualOf contentLengthStringRows entry.1 = none ∨
        ∃ actualType, actualOf contentLengthStringRows entry.1 = some actualType ∧
          asciiEqualFold actualType entry.2 = false) ∧
      (ensureTableExistsWithTheCorrectForm asciiEqualFold expectedSchema.reverse
          (storeWith 1 contentLengthStringRows) "analytics").1 =
        (true, some (Errorf ("schema mismatch for column '" ++ entry.1 ++ "': expected '" ++
          entry.2 ++ "', got '" ++ (actualOf contentLengthStringRows entry.1).getD "" ++ "'"))) ∧
      (Init asciiEqualFold expectedSchema.reverse expectedSchema
          (openTo (storeWith 1 contentLengthStringRows)) "u" "p" "localhost" "9000" "default"
          "analytics" true true).1 =
        .error (Errorf ("schema mismatch for column '" ++ entry.1 ++ "': expected '" ++
          entry.2 ++ "', got '" ++
          (actualOf contentLengthStringRows entry.1).getD "" ++ "'"))) ∧
    (ensureTableExistsWithTheCorrectForm asciiEqualFold expectedSchema.reverse
        (storeWith 1 contentLengthStringRows) "analytics").1 =
      (true, some (Errorf
        "schema mismatch for column 'content_length': expected 'Int64', got 'String'")) :=
  have hmis : ∃ entry ∈ expectedSchema, actualOf contentLengthStringRows entry.1 = none ∨
      ∃ actualType, actualOf contentLengthStringRows entry.1 = some actualType ∧
        asciiEqualFold actualType entry.2 = false :=
    ⟨("content_length", "Int64"), by decide, Or.inr ⟨"String", by decide, by decide⟩⟩
  ⟨⟨List.reverse_perm _, rfl, rfl, rfl, by decide, rfl, rfl, hmis⟩,
    schema_mismatch_message asciiEqualFold expectedSchema.reverse expectedSchema
      (openTo (storeWith 1 contentLengthStringRows)) "u" "p" "localhost" "9000" "default"
      "analytics" true (storeWith 1 contentLengthStringRows) 1 contentLengthStringRows
      (actualOf contentLengthStringRows) (List.reverse_perm _) rfl rfl rfl (by decide) rfl rfl
      hmis,
    by decide⟩

/-- Claim C10 fails on the code: the insert issued for the table `analytics` carries 34 `?`
placeholders while it names 33 columns and binds 33 arguments. -/
theorem insert_placeholder_count :
    ((addAnalyticsDataToDB ⟨"analytics", storeWithTx txOk⟩
        (extractAnalyticsData plainRequest)).2.filterMap fun e =>
      match e with
      | .txExec statement args => some (placeholderCount statement, args.length)
      | _ => none) = [(34, 33)] ∧
    placeholderCount insertPlaceholders = 34 ∧
    (columnNames insertColumnList).length = 33 := by
  decide

end Gam
